import Mathlib

/-!
# Verification of the flat-file tracker tools

Shallow embedding of the tracker tools of this repository
(`application_tracker.py`, `daily_planner.py`, `finance.py`, `wellness.py`,
`job_search.py`) and proofs of the spec claims about them.

Modelling conventions, uniform across the file:
* Python strings become `String`; `s.strip()` becomes `String.trim`,
  `s.lower()` becomes `String.toLower`.  The Python truthiness test
  `not s or not s.strip()` becomes `s.trim.isEmpty` (an empty string trims
  to the empty string).
* Monetary amounts (Python floats, always produced through `round(x, 2)`)
  become `ℚ`; Python `round` (round-half-to-even) becomes `pythonRound`.
* `datetime.now().strftime(...)` results are opaque inputs: every function
  takes the needed `today` / `now` strings as explicit parameters.  For the
  habit tracker, whose streak loop walks backward calendar day by calendar
  day, dates are modelled as day numbers (`Nat`): `strftime("%Y-%m-%d")` is
  injective on days and `timedelta(days=1)` subtracts one day number.
* A tool call that loads a collection, possibly mutates it and possibly
  rewrites the file is modelled as a function from the loaded collection to
  a `ToolOut`: the returned message, the resulting collection, and whether
  the save (`_save_json` / `_save_applications`) was executed on that path.
-/

/-- Python `str.strip()`: drop leading and trailing whitespace.  Implemented
structurally over the character data so that the kernel can evaluate it
(core `String.trim` is defined by well-founded recursion). -/
def pyStrip (s : String) : String :=
  ⟨((s.data.dropWhile Char.isWhitespace).reverse.dropWhile Char.isWhitespace).reverse⟩

/-- Python `str.lower()` (ASCII case folding suffices for the inputs the
tools compare against their allowed-value lists). -/
def pyLower (s : String) : String := ⟨s.data.map Char.toLower⟩

/-- Python `str.upper()` (ASCII). -/
def pyUpper (s : String) : String := ⟨s.data.map Char.toUpper⟩

/-- Python `str.startswith(pre)`, structurally over the character data. -/
def pyStartsWith (s pre : String) : Bool := pre.data.isPrefixOf s.data

/-- Substring containment ("needle in haystack" of Python), as list infix
on the underlying character data. -/
def strContains (s pat : String) : Prop := pat.data <:+: s.data

instance (s pat : String) : Decidable (strContains s pat) :=
  inferInstanceAs (Decidable (pat.data <:+: s.data))

/-- String prefix ("startswith" of Python), as list prefix on the
underlying character data. -/
def strPrefix (pat s : String) : Prop := pat.data <+: s.data

instance (pat s : String) : Decidable (strPrefix pat s) :=
  inferInstanceAs (Decidable (pat.data <+: s.data))

/-- Python `round` to an integer: round half to even (banker's rounding). -/
def pythonRound (q : ℚ) : ℤ :=
  let f : ℤ := ⌊q⌋
  let r : ℚ := q - f
  if r < 1/2 then f
  else if 1/2 < r then f + 1
  else if f % 2 = 0 then f else f + 1

/-- Python `round(x, 2)`: round to two decimal places, half to even. -/
def round2 (q : ℚ) : ℚ := (pythonRound (q * 100) : ℚ) / 100

/-- Result of one tool invocation over a collection of type `σ`: the
returned message, the collection afterwards, and whether the collection
file was rewritten on that control path. -/
structure ToolOut (σ : Type) where
  msg : String
  store : σ
  wrote : Bool
deriving Repr

/-! ## Application tracker (`application_tracker.py`) -/

/-- The `VALID_STATUSES` list of `application_tracker.py`. -/
def VALID_STATUSES : List String :=
  ["applied", "screening", "interview", "technical", "offer", "rejected", "withdrawn"]

/-- One record of `applications.json`. -/
structure Application where
  id : Nat
  company : String
  role : String
  status : String
  notes : String
  applied_date : String
  last_updated : String
deriving DecidableEq, Repr

/-- Model of `add_application(company, role, status, notes)`; `today` and `now` are
the current date and timestamp strings. -/
def add_application (apps : List Application) (company role status notes : String)
    (today now : String) : ToolOut (List Application) :=
  if (pyStrip company).isEmpty then ⟨"Error: Company name is required.", apps, false⟩
  else if (pyStrip role).isEmpty then ⟨"Error: Role/position is required.", apps, false⟩
  else
    let company := pyStrip company
    let role := pyStrip role
    let status := if status.isEmpty then "applied" else pyLower (pyStrip status)
    let notes := pyStrip notes
    if VALID_STATUSES.contains status then
      let app : Application :=
        ⟨apps.length + 1, company, role, status, notes, today, now⟩
      ⟨"Application #" ++ toString app.id ++ " added!\n  Company: " ++ company ++
         "\n  Role: " ++ role ++ "\n  Status: " ++ status ++ "\n  Date: " ++ today,
       apps ++ [app], true⟩
    else
      ⟨"Error: Invalid status \x27" ++ status ++ "\x27. Must be one of: " ++
         String.intercalate ", " VALID_STATUSES, apps, false⟩

/-- The `for app in apps` loop of `update_application`: mutate the first
record whose id matches, rewrite the file and return; falling off the end
returns the not-found error with nothing written. -/
def update_loop (aid : Nat) (status notes now : String) :
    List Application → ToolOut (List Application)
  | [] => ⟨"Error: Application #" ++ toString aid ++ " not found.", [], false⟩
  | app :: rest =>
    if app.id = aid then
      let app2 : Application :=
        { app with
          status := status
          last_updated := now
          notes := if notes.isEmpty then app.notes else pyStrip notes }
      ⟨"Application #" ++ toString aid ++ " updated!\n  " ++ app.company ++ " - " ++
         app.role ++ "\n  Status: " ++ app.status ++ " -> " ++ status,
       app2 :: rest, true⟩
    else
      let r := update_loop aid status notes now rest
      ⟨r.msg, app :: r.store, r.wrote⟩

/-- The normalization `status.strip().lower() if status else ""` of `update_application`. -/
def normStatus (status : String) : String :=
  if status.isEmpty then "" else pyLower (pyStrip status)

/-- Model of `update_application(application_id, status, notes)`. -/
def update_application (apps : List Application) (application_id : Int)
    (status notes : String) (now : String) : ToolOut (List Application) :=
  if application_id < 1 then
    ⟨"Error: Please provide a valid application ID (positive number).", apps, false⟩
  else
    let status := normStatus status
    if VALID_STATUSES.contains status then
      update_loop application_id.toNat status notes now apps
    else
      ⟨"Error: Invalid status \x27" ++ status ++ "\x27. Must be one of: " ++
         String.intercalate ", " VALID_STATUSES, apps, false⟩

/-! ## Daily planner (`daily_planner.py`) -/

/-- The `TODO_PRIORITIES` list of `daily_planner.py`. -/
def TODO_PRIORITIES : List String := ["high", "medium", "low"]

/-- One record of `todos.json`. -/
structure Todo where
  id : Nat
  task : String
  priority : String
  status : String
  due_date : String
  created : String
  completed_at : String
deriving DecidableEq, Repr

/-- Model of `add_task(task, priority, due_date)`. -/
def add_task (todos : List Todo) (task priority due_date : String)
    (now : String) : ToolOut (List Todo) :=
  if (pyStrip task).isEmpty then ⟨"Error: Task description is required.", todos, false⟩
  else
    let task := pyStrip task
    let priority := if priority.isEmpty then "medium" else pyLower (pyStrip priority)
    if TODO_PRIORITIES.contains priority then
      let todo : Todo :=
        ⟨todos.length + 1, task, priority, "pending",
         if due_date.isEmpty then "" else pyStrip due_date, now, ""⟩
      ⟨"Task #" ++ toString todo.id ++ " added!\n  [" ++ pyUpper priority ++ "] " ++ task ++
         (if todo.due_date.isEmpty then "" else " | Due: " ++ todo.due_date),
       todos ++ [todo], true⟩
    else
      ⟨"Error: Priority must be one of: " ++ String.intercalate ", " TODO_PRIORITIES,
       todos, false⟩

/-- The `for todo in todos` loop of `complete_task`; `acc` holds the records
already scanned (the progress counts are taken over the whole collection). -/
def complete_loop (tid : Nat) (now : String) (acc : List Todo) :
    List Todo → ToolOut (List Todo)
  | [] => ⟨"Error: Task #" ++ toString tid ++ " not found.", acc, false⟩
  | t :: rest =>
    if t.id = tid then
      if t.status = "completed" then
        ⟨"Task #" ++ toString tid ++ " is already completed!", acc ++ t :: rest, false⟩
      else
        let t2 : Todo := { t with status := "completed", completed_at := now }
        let todos2 := acc ++ t2 :: rest
        let pending := todos2.countP (fun x => x.status == "pending")
        let completed := todos2.countP (fun x => x.status == "completed")
        ⟨"Task #" ++ toString tid ++ " completed: " ++ t.task ++ "\nProgress: " ++
           toString completed ++ " done, " ++ toString pending ++ " remaining. Keep going!",
         todos2, true⟩
    else complete_loop tid now (acc ++ [t]) rest

/-- Model of `complete_task(task_id)`. -/
def complete_task (todos : List Todo) (task_id : Int) (now : String) :
    ToolOut (List Todo) :=
  if task_id < 1 then ⟨"Error: Please provide a valid task ID.", todos, false⟩
  else complete_loop task_id.toNat now [] todos

/-- One element of a habit's `entries` list; the date is a day number (see
the module docstring). -/
structure HabitEntry where
  date : Nat
  completed : Bool
deriving DecidableEq, Repr

/-- One record of `habits.json`. -/
structure Habit where
  name : String
  entries : List HabitEntry
  created : Nat
deriving DecidableEq, Repr

/-- The dict comprehension `{e["date"]: e["completed"] for e in entries}`
followed by `.get(date)`: the lookup takes the LAST entry for a date (later
dict assignments overwrite earlier ones), and an absent date is falsy. -/
def entriesByDate (entries : List HabitEntry) (d : Nat) : Bool :=
  match (entries.filter (fun e => e.date == d)).getLast? with
  | some e => e.completed
  | none => false

/-- The streak `while` loop of `track_habit` / `view_habits`: walk backward
from day `d` while the map holds `true`, stop at the first gap.  (The
Python loop would walk past day 0 into earlier dates; those are absent from
any entry map whose dates are day numbers, so it stops there too.) -/
def streakFrom (m : Nat → Bool) : Nat → Nat
  | 0 => if m 0 then 1 else 0
  | d + 1 => if m (d + 1) then streakFrom m d + 1 else 0

/-- The streak reported for a habit's stored entries, as computed
identically in `track_habit` (lines 195-205) and `view_habits`
(lines 240-250). -/
def habitStreak (entries : List HabitEntry) (today : Nat) : Nat :=
  streakFrom (entriesByDate entries) today

/-- The already-logged-today update of `track_habit`: overwrite the first
entry carrying today's date, or append a fresh entry. -/
def setTodayEntry : List HabitEntry → Nat → Bool → List HabitEntry
  | [], today, c => [⟨today, c⟩]
  | e :: es, today, c =>
    if e.date = today then ⟨e.date, c⟩ :: es else e :: setTodayEntry es today c

/-- Replace the entries of the first habit named `name` (`track_habit`
mutates the found habit object in place). -/
def updateHabitEntries (name : String) (today : Nat) (completed : Bool) :
    List Habit → List Habit
  | [] => []
  | h :: hs =>
    if h.name = name then { h with entries := setTodayEntry h.entries today completed } :: hs
    else h :: updateHabitEntries name today completed hs

/-- The entries of the tracked habit after `track_habit` has logged today:
the found habit's entries with today's value overwritten/appended, or a
fresh single-entry list when the habit did not exist. -/
def trackedEntries (habits : List Habit) (name : String) (today : Nat)
    (completed : Bool) : List HabitEntry :=
  match habits.find? (fun h => h.name == name) with
  | some h => setTodayEntry h.entries today completed
  | none => [⟨today, completed⟩]

/-- The completion rate `round((total_done / total_days) * 100) if total_days > 0 else 0`. -/
def completionRate (entries : List HabitEntry) : ℤ :=
  let total := entries.length
  let done := entries.countP (fun e => e.completed)
  if 0 < total then pythonRound ((done : ℚ) / (total : ℚ) * 100) else 0

/-- Model of `track_habit(habit_name, completed)`. -/
def track_habit (habits : List Habit) (habit_name : String) (completed : Bool)
    (today : Nat) : ToolOut (List Habit) :=
  if (pyStrip habit_name).isEmpty then ⟨"Error: Habit name is required.", habits, false⟩
  else
    let name := pyLower (pyStrip habit_name)
    let habits2 :=
      if habits.any (fun h => h.name == name) then
        updateHabitEntries name today completed habits
      else habits ++ [⟨name, [⟨today, completed⟩], today⟩]
    let entries := trackedEntries habits name today completed
    let streak := habitStreak entries today
    let done := entries.countP (fun e => e.completed)
    let status := if completed then "Done" else "Skipped"
    ⟨"Habit: " ++ name ++ " - " ++ status ++ " for today!\n  " ++ "Current streak: " ++
       toString streak ++ " days" ++ "\n  Completion rate: " ++
       toString (completionRate entries) ++ "% (" ++ toString done ++ "/" ++
       toString entries.length ++ " days)\n  " ++
       (if 1 < streak then "Keep the streak alive!" else "Start building that streak!"),
     habits2, true⟩

/-- The per-habit line of `view_habits`, with the same streak loop. -/
def viewHabitLine (h : Habit) (today : Nat) : String :=
  let streak := habitStreak h.entries today
  let done := h.entries.countP (fun e => e.completed)
  let todayIcon := if entriesByDate h.entries today then "[x]" else "[ ]"
  "  " ++ todayIcon ++ " " ++ h.name ++ ": " ++ toString streak ++ " day streak" ++ " | " ++
    toString (completionRate h.entries) ++ "% rate (" ++ toString done ++ "/" ++
    toString h.entries.length ++ ")"

/-- Model of `view_habits()` (the statistics block; the fixed header/footer lines
are presentation). -/
def view_habits (habits : List Habit) (today : Nat) : String :=
  if habits.isEmpty then "No habits tracked yet! Use track_habit(\x27exercise\x27) to start."
  else
    "Your Habits (" ++ toString habits.length ++ " tracked):\n" ++
      String.intercalate "\n" (habits.map (fun h => viewHabitLine h today)) ++
      "\n\nTip: Consistency > perfection. Even 1% daily improvement compounds."

/-- Goal categories accepted by `set_weekly_goal`. -/
def VALID_CATEGORIES : List String := ["career", "health", "learning", "personal", "general"]

/-- One record of `goals.json`. -/
structure WeeklyGoal where
  id : Nat
  goal : String
  category : String
  status : String
  week_start : String
  created : String
  completed_at : String
deriving DecidableEq, Repr

/-- Model of `set_weekly_goal(goal, category)`; `week_start` and `now` are the
Monday-of-week date and current timestamp strings.  An unknown category is
silently replaced by `"general"` (lines 281-284), not rejected. -/
def set_weekly_goal (goals : List WeeklyGoal) (goal category : String)
    (week_start now : String) : ToolOut (List WeeklyGoal) :=
  if (pyStrip goal).isEmpty then ⟨"Error: Goal description is required.", goals, false⟩
  else
    let goal := pyStrip goal
    let category := if category.isEmpty then "general" else pyLower (pyStrip category)
    let category := if VALID_CATEGORIES.contains category then category else "general"
    let entry : WeeklyGoal :=
      ⟨goals.length + 1, goal, category, "in_progress", week_start, now, ""⟩
    ⟨"Weekly goal #" ++ toString entry.id ++ " set!\n  [" ++ pyUpper category ++ "] " ++ goal ++
       "\n  Week of: " ++ week_start ++
       "\n  Break this into daily tasks with add_task() for best results!",
     goals ++ [entry], true⟩

/-! ## Finance (`finance.py`) -/

/-- The `EXPENSE_CATEGORIES` list of `finance.py`. -/
def EXPENSE_CATEGORIES : List String :=
  ["food", "transport", "rent", "utilities", "entertainment",
   "shopping", "health", "education", "subscriptions", "other"]

/-- The `INCOME_TYPES` list of `finance.py`. -/
def INCOME_TYPES : List String := ["salary", "freelance", "investment", "gift", "refund", "other"]

/-- Python `str.title()` restricted to the single lowercase words the code
applies it to (capitalize the first letter of each word). -/
def pyTitle (s : String) : String :=
  String.intercalate " " ((s.splitOn " ").map (fun w =>
    match w.data with
    | [] => ""
    | c :: cs => ⟨Char.toUpper c :: cs.map Char.toLower⟩))

/-- Rendering of a two-decimal amount: model of the `Rs.{x}` /
`Rs.{x:,.2f}` interpolations.  The exact digit grouping is presentation;
no theorem relies on this function's output. -/
def fmtMoney (q : ℚ) : String :=
  let cents : ℤ := pythonRound (q * 100)
  let sign := if cents < 0 then "-" else ""
  sign ++ toString (cents.natAbs / 100) ++ "." ++
    (if cents.natAbs % 100 < 10 then "0" else "") ++ toString (cents.natAbs % 100)

/-- One record of `expenses.json`. -/
structure Expense where
  id : Nat
  amount : ℚ
  category : String
  description : String
  date : String
  timestamp : String
deriving DecidableEq, Repr

/-- The `budget.json` singleton (`_load_json_dict` returns `{}`, i.e.
`none` here, when the file is absent or malformed). -/
structure Budget where
  monthly_total : ℚ
  categories : List (String × ℚ)
  set_date : String
deriving DecidableEq, Repr

/-- Result of `add_expense`: the message, the budget-warning component
appended to it (`budget_warn`, empty when no warning fired), the resulting
collection and whether it was saved. -/
structure ExpenseOut where
  msg : String
  warn : String
  expenses : List Expense
  wrote : Bool
deriving Repr

/-- The normalization `category.strip().lower() if category else "other"` of `add_expense`. -/
def normCat (category : String) : String :=
  if category.isEmpty then "other" else pyLower (pyStrip category)

/-- The current-month expense sum
`sum(e["amount"] for e in expenses if e["date"].startswith(month))`. -/
def monthExpenseTotal (expenses : List Expense) (month : String) : ℚ :=
  ((expenses.filter (fun x => pyStartsWith x.date month)).map (·.amount)).sum

/-- Model of `add_expense(amount, category, description)`; `budget` is the loaded
`budget.json` singleton, `today`/`month`/`now` the current
`%Y-%m-%d` / `%Y-%m` / timestamp strings (so `today` starts with `month`).
The warning threshold is `month_total > monthly_budget * 0.8`. -/
def add_expense (expenses : List Expense) (budget : Option Budget) (amount : ℚ)
    (category description : String) (today month now : String) : ExpenseOut :=
  if amount ≤ 0 then ⟨"Error: Amount must be a positive number.", "", expenses, false⟩
  else
    let category := normCat category
    if EXPENSE_CATEGORIES.contains category then
      let amount := round2 amount
      let e : Expense :=
        ⟨expenses.length + 1, amount, category,
         if description.isEmpty then "" else pyStrip description, today, now⟩
      let expenses2 := expenses ++ [e]
      let todayTotal := ((expenses2.filter (fun x => x.date == today)).map (·.amount)).sum
      let warn :=
        match budget with
        | none => ""
        | some b =>
          let monthlyBudget := b.monthly_total
          let monthTotal := monthExpenseTotal expenses2 month
          if 0 < monthlyBudget ∧ monthlyBudget * (8 / 10) < monthTotal then
            "\n  WARNING: You\x27ve used " ++
              toString (pythonRound (monthTotal / monthlyBudget * 100)) ++
              "% of your monthly budget!"
          else ""
      ⟨"Expense #" ++ toString e.id ++ " logged!\n  " ++ pyTitle category ++ ": Rs." ++
         fmtMoney amount ++ (if e.description.isEmpty then "" else " - " ++ e.description) ++
         "\n  Today\x27s total: Rs." ++ fmtMoney todayTotal ++ warn,
       warn, expenses2, true⟩
    else
      ⟨"Error: Invalid category. Choose from: " ++ String.intercalate ", " EXPENSE_CATEGORIES,
       "", expenses, false⟩

/-- One record of `income.json`. -/
structure IncomeEntry where
  id : Nat
  amount : ℚ
  source : String
  description : String
  date : String
  timestamp : String
deriving DecidableEq, Repr

/-- Model of `add_income(amount, source, description)`.  An unknown source is
silently replaced by `"other"` (lines 198-200), not rejected. -/
def add_income (income : List IncomeEntry) (amount : ℚ) (source description : String)
    (today month now : String) : ToolOut (List IncomeEntry) :=
  if amount ≤ 0 then ⟨"Error: Amount must be a positive number.", income, false⟩
  else
    let source := if source.isEmpty then "salary" else pyLower (pyStrip source)
    let source := if INCOME_TYPES.contains source then source else "other"
    let amount := round2 amount
    let entry : IncomeEntry := ⟨income.length + 1, amount, source,
      if description.isEmpty then "" else pyStrip description, today, now⟩
    let income2 := income ++ [entry]
    let monthIncome := ((income2.filter (fun i => pyStartsWith i.date month)).map (·.amount)).sum
    ⟨"Income logged!\n  Source: " ++ pyTitle source ++ " | Amount: Rs." ++ fmtMoney amount ++
       "\n  This month\x27s total income: Rs." ++ fmtMoney monthIncome,
     income2, true⟩

/-- Parse one decimal numeral (`float(...)` on the category-budget items);
returns `none` where Python would raise `ValueError` (ignored upstream). -/
def parseMoney (s : String) : Option ℚ :=
  let core (l : List Char) : Option ℚ :=
    let parts := (String.mk l).splitOn "."
    let digitsVal (w : List Char) : Option ℕ :=
      if w ≠ [] ∧ w.all Char.isDigit then
        some (w.foldl (fun a c => a * 10 + (c.toNat - 48)) 0)
      else none
    match parts with
    | [ip] => (digitsVal ip.data).map (fun n => (n : ℚ))
    | [ip, fp] =>
      match digitsVal ip.data, digitsVal fp.data with
      | some n, some f => some ((n : ℚ) + (f : ℚ) / (10 : ℚ) ^ fp.length)
      | _, _ => none
    | _ => none
  match s.data with
  | '-' :: rest => (core rest).map Neg.neg
  | l => core l

/-- The category-budget parsing loop of `set_budget` (items `cat:amt`
split on commas; unparsable amounts are skipped as Python swallows the
`ValueError`). -/
def parseCategoryBudgets (category_budgets : String) : List (String × ℚ) :=
  if (pyStrip category_budgets).isEmpty then []
  else
    (category_budgets.splitOn ",").foldl (fun acc item =>
      let item := pyStrip item
      if item.data.contains ':' then
        match item.splitOn ":" with
        | cat :: amtParts =>
          match parseMoney (pyStrip (String.intercalate ":" amtParts)) with
          | some a => acc ++ [(pyLower (pyStrip cat), round2 a)]
          | none => acc
        | [] => acc
      else acc) []

/-- Model of `set_budget(monthly_total, category_budgets)`; the result is the new
`budget.json` singleton (or `none` with an error when nothing was written). -/
def set_budget (monthly_total : ℚ) (category_budgets : String) (today : String) :
    ToolOut (Option Budget) :=
  if monthly_total ≤ 0 then ⟨"Error: Monthly budget must be a positive number.", none, false⟩
  else
    let cats := parseCategoryBudgets category_budgets
    let b : Budget := ⟨round2 monthly_total, cats, today⟩
    ⟨String.intercalate "\n"
       (["Monthly budget set: Rs." ++ fmtMoney b.monthly_total ++ "\n"] ++
        (if cats.isEmpty then []
         else "Category limits:" ::
           cats.map (fun p => "  " ++ pyTitle p.1 ++ ": Rs." ++ fmtMoney p.2)) ++
        ["\nTip: The 50/30/20 rule - 50% needs, 30% wants, 20% savings."]),
     some b, true⟩

/-- One element of a savings goal's `deposits` list. -/
structure Deposit where
  amount : ℚ
  date : String
deriving DecidableEq, Repr

/-- One record of `savings.json`. -/
structure SavingsGoal where
  id : Nat
  name : String
  target : ℚ
  saved : ℚ
  deadline : String
  deposits : List Deposit
  created : String
deriving DecidableEq, Repr

/-- Model of `set_savings_goal(name, target_amount, deadline)`. -/
def set_savings_goal (savings : List SavingsGoal) (name : String) (target_amount : ℚ)
    (deadline today : String) : ToolOut (List SavingsGoal) :=
  if (pyStrip name).isEmpty then ⟨"Error: Goal name is required.", savings, false⟩
  else if target_amount ≤ 0 then
    ⟨"Error: Target amount must be a positive number.", savings, false⟩
  else
    let name := pyStrip name
    let goal : SavingsGoal :=
      ⟨savings.length + 1, name, round2 target_amount, 0,
       if deadline.isEmpty then "" else pyStrip deadline, [], today⟩
    ⟨"Savings goal created!\n  Goal #" ++ toString goal.id ++ ": " ++ name ++
       "\n  Target: Rs." ++ fmtMoney goal.target ++
       (if goal.deadline.isEmpty then "" else "\n  Deadline: " ++ goal.deadline) ++
       "\n  Start saving with add_to_savings()!",
     savings ++ [goal], true⟩

/-- The progress percentage of `add_to_savings` / `view_savings`:
`min(100, round((saved / target) * 100))`. -/
def savingsPct (saved target : ℚ) : ℤ := min 100 (pythonRound (saved / target * 100))

/-- The progress bar `"#" * (pct // 5) + "-" * ((100 - pct) // 5)`. -/
def savingsBar (pct : ℤ) : String :=
  ⟨List.replicate (Int.fdiv pct 5).toNat '#' ++ List.replicate (Int.fdiv (100 - pct) 5).toNat '-'⟩

/-- Result of `add_to_savings`: the message, the goal-reached component
appended to it (empty when the goal was not reached on this deposit), the
resulting collection and whether it was saved. -/
structure SavingsOut where
  msg : String
  reached : String
  store : List SavingsGoal
  wrote : Bool
deriving Repr

/-- The `for goal in savings` loop of `add_to_savings`: credit the first
goal whose id matches (appending `"GOAL REACHED"` exactly when the rounded
percentage reaches 100), rewrite the file and return; falling off the end
returns the not-found error with nothing written. -/
def savings_loop (gid : Nat) (amount : ℚ) (today : String) :
    List SavingsGoal → SavingsOut
  | [] => ⟨"Error: Savings goal #" ++ toString gid ++ " not found.", "", [], false⟩
  | g :: rest =>
    if g.id = gid then
      let saved2 := round2 (g.saved + amount)
      let g2 : SavingsGoal := { g with saved := saved2, deposits := g.deposits ++ [⟨amount, today⟩] }
      let remaining := max 0 (g.target - saved2)
      let pct := savingsPct saved2 g.target
      let reached := if 100 ≤ pct then "\n\n  GOAL REACHED! Congratulations!" else ""
      let result :=
        "Added Rs." ++ fmtMoney amount ++ " to \x27" ++ g.name ++ "\x27!\n  Progress: Rs." ++
          fmtMoney saved2 ++ " / Rs." ++ fmtMoney g.target ++ " " ++ "(" ++ toString pct ++
          "%)" ++ "\n  [" ++ savingsBar pct ++ "]\n  Remaining: Rs." ++ fmtMoney remaining
      ⟨result ++ reached, reached, g2 :: rest, true⟩
    else
      let r := savings_loop gid amount today rest
      ⟨r.msg, r.reached, g :: r.store, r.wrote⟩

/-- Model of `add_to_savings(goal_id, amount)`. -/
def add_to_savings (savings : List SavingsGoal) (goal_id : Int) (amount : ℚ)
    (today : String) : SavingsOut :=
  if goal_id < 1 then ⟨"Error: Please provide a valid goal ID.", "", savings, false⟩
  else if amount ≤ 0 then ⟨"Error: Amount must be a positive number.", "", savings, false⟩
  else savings_loop goal_id.toNat (round2 amount) today savings

/-! ## Wellness (`wellness.py`) -/

/-- The `VALID_MOODS` list of `wellness.py`. -/
def VALID_MOODS : List String :=
  ["great", "good", "okay", "low", "stressed", "anxious", "sad", "angry", "tired"]

/-- One record of `mood_log.json`. -/
structure MoodEntry where
  mood : String
  notes : String
  timestamp : String
  date : String
deriving DecidableEq, Repr

/-- Model of `log_mood(mood, notes)`.  On the success path the returned text also
carries randomly sampled tips/quotes; only its deterministic first line is
modelled (no claim concerns the random part).  Both failure paths return
descriptive messages that do NOT carry the `"Error:"` prefix
(lines 162-167). -/
def log_mood (entries : List MoodEntry) (mood notes : String) (today now : String) :
    ToolOut (List MoodEntry) :=
  if (pyStrip mood).isEmpty then
    ⟨"Please tell me how you\x27re feeling. Options: " ++ String.intercalate ", " VALID_MOODS,
     entries, false⟩
  else
    let mood := pyLower (pyStrip mood)
    if VALID_MOODS.contains mood then
      let entry : MoodEntry := ⟨mood, if notes.isEmpty then "" else pyStrip notes, now, today⟩
      ⟨"Mood logged: " ++ mood ++ " (" ++ now ++ ")", entries ++ [entry], true⟩
    else
      ⟨"I don\x27t recognize \x27" ++ mood ++ "\x27. Try one of: " ++
         String.intercalate ", " VALID_MOODS, entries, false⟩

/-! ## Job search (`job_search.py`) -/

/-- Model of `urllib.parse.quote` with the default `safe="/"`, for ASCII input
(non-ASCII would be percent-encoded bytewise through UTF-8; the claims only
concern the error key, never the URL text). -/
def urlQuote (s : String) : String :=
  ⟨s.data.foldr (fun c acc =>
    if c.isAlphanum ∨ c ∈ ['_', '.', '-', '~', '/'] then c :: acc
    else
      let n := c.toNat % 256
      let hex := fun (k : Nat) => if k < 10 then Char.ofNat (48 + k) else Char.ofNat (55 + k)
      '%' :: hex (n / 16) :: hex (n % 16) :: acc) []⟩

/-- Model of `search_jobs(job_title, location)`: the returned platform→URL mapping,
as an association list; the empty-title failure path returns a mapping
carrying the single key `"error"` (lines 22-23). -/
def search_jobs (job_title location : String) : List (String × String) :=
  if (pyStrip job_title).isEmpty then
    [("error", "job_title is required and cannot be empty.")]
  else
    let job_title := pyStrip job_title
    let location := if location.isEmpty then "India" else pyStrip location
    let slug := (pyLower job_title).replace " " "-"
    let locationSlug := (pyLower location).replace " " "-"
    [("LinkedIn", "https://www.linkedin.com/jobs/search/?keywords=" ++ urlQuote job_title ++
        "&location=" ++ urlQuote location),
     ("Indeed", "https://www.indeed.com/jobs?q=" ++ urlQuote job_title ++
        "&l=" ++ urlQuote location),
     ("Naukri", "https://www.naukri.com/" ++ slug ++ "-jobs-in-" ++ locationSlug),
     ("Glassdoor", "https://www.glassdoor.co.in/Job/jobs.htm?sc.keyword=" ++
        urlQuote job_title ++ "&locT=C&locKeyword=" ++ urlQuote location),
     ("Wellfound", "https://wellfound.com/role/r/" ++ slug),
     ("Internshala", "https://internshala.com/jobs/" ++ slug ++ "-jobs-in-" ++ locationSlug)]

/-! ## Persistence layer (`_save_applications` / `_load_applications`)

`_save_applications` runs `json.dump(apps, f)` — it serializes the
in-memory list (a JSON array of record objects) over the whole file —
and `_load_applications` runs `json.load(f)`, returning the parsed
document, `[]` when the file is absent, and `[]` on malformed content.
The JSON text encoding itself is the standard library's (out of scope per
the spec); the file is therefore modelled by its parse result: absent,
malformed, or a JSON document. -/

/-- A JSON document (Python values produced by `json.load`). -/
inductive Json where
  | null
  | bool (b : Bool)
  | num (q : ℚ)
  | str (s : String)
  | arr (elems : List Json)
  | obj (fields : List (String × Json))

/-- State of the `applications.json` file. -/
inductive FileState where
  | absent
  | malformed
  | doc (j : Json)

/-- Model of `_save_applications(apps)`: rewrite the whole file with the JSON array
holding the in-memory records. -/
def save_applications (apps : List Json) : FileState := .doc (.arr apps)

/-- Model of `_load_applications()`: `[]` for an absent file, `[]` (with a logged
warning) for malformed content, otherwise the parsed document.  A non-array
document would be returned as-is by Python in defiance of the type
annotation; it is unreachable after any save, and modelled as `[]`. -/
def load_applications : FileState → List Json
  | .absent => []
  | .malformed => []
  | .doc (.arr l) => l
  | .doc _ => []

/-- The JSON object `json.dump` writes for one application record. -/
def appToJson (a : Application) : Json :=
  .obj [("id", .num a.id), ("company", .str a.company), ("role", .str a.role),
        ("status", .str a.status), ("notes", .str a.notes),
        ("applied_date", .str a.applied_date), ("last_updated", .str a.last_updated)]

/-- Python dict lookup on a parsed JSON object (later duplicate keys would
overwrite earlier ones, hence the last match). -/
def jsonLookup (fields : List (String × Json)) (k : String) : Option Json :=
  (fields.reverse.find? (fun p => p.1 == k)).map (·.2)

/-- Read a JSON number back as the natural-number id it was written from. -/
def Json.asNat : Json → Option Nat
  | .num q => if q.den = 1 ∧ 0 ≤ q.num then some q.num.toNat else none
  | _ => none

/-- Read a JSON string. -/
def Json.asStr : Json → Option String
  | .str s => some s
  | _ => none

/-- Decode one application record from its JSON object (the field accesses
`app["id"]`, `app["company"]`, ... of the source). -/
def jsonToApp (j : Json) : Option Application :=
  match j with
  | .obj f => do
    let i ← (jsonLookup f "id").bind Json.asNat
    let c ← (jsonLookup f "company").bind Json.asStr
    let r ← (jsonLookup f "role").bind Json.asStr
    let s ← (jsonLookup f "status").bind Json.asStr
    let n ← (jsonLookup f "notes").bind Json.asStr
    let ad ← (jsonLookup f "applied_date").bind Json.asStr
    let lu ← (jsonLookup f "last_updated").bind Json.asStr
    pure ⟨i, c, r, s, n, ad, lu⟩
  | _ => none

/-- Decode a whole stored collection back to application records. -/
def decodeApps : List Json → Option (List Application)
  | [] => some []
  | j :: rest => do
    let a ← jsonToApp j
    let as ← decodeApps rest
    pure (a :: as)

/-- A sequence of `add_application` calls (company, role pairs, default
status and empty notes), as exercised by the id-assignment property:
returns the confirmation messages in order and the final collection. -/
def runAdds (today now : String) :
    List (String × String) → List Application → List String × List Application
  | [], apps => ([], apps)
  | p :: ps, apps =>
    let o := add_application apps p.1 p.2 "applied" "" today now
    let rest := runAdds today now ps o.store
    (o.msg :: rest.1, rest.2)

/-! ## Shared lemmas -/

theorem strContains_rfl (p : String) : strContains p p :=
  ⟨[], [], by simp [strContains]⟩

theorem strContains_appendl {s p : String} (t : String) (h : strContains s p) :
    strContains (s ++ t) p := by
  obtain ⟨x, y, hxy⟩ := h
  exact ⟨x, y ++ t.data, by simp [String.data_append, ← hxy]⟩

theorem strContains_appendr {t p : String} (s : String) (h : strContains t p) :
    strContains (s ++ t) p := by
  obtain ⟨x, y, hxy⟩ := h
  exact ⟨s.data ++ x, y, by simp [String.data_append, ← hxy]⟩

/-- A character list whose leading characters differ from `p` does not
acquire the prefix `p` from anything appended behind them. -/
theorem not_prefix_of_take_ne {p a : List Char} (b : List Char) (ha : p.length ≤ a.length)
    (h : a.take p.length ≠ p) : ¬ (p <+: a ++ b) := by
  intro hp
  rw [List.prefix_iff_eq_take, List.take_append_of_le_length ha] at hp
  exact h hp.symm

/-- A character list starting with five characters other than `Error` does
not acquire the `Error` prefix from anything appended behind them. -/
theorem not_error_prefix_list {a : List Char} (b : List Char) (ha : 5 ≤ a.length)
    (h : a.take 5 ≠ "Error".data) : ¬ ("Error".data <+: a ++ b) := by
  intro hp
  rw [List.prefix_iff_eq_take] at hp
  have h5 : ("Error".data).length = 5 := by decide
  rw [h5, List.take_append_of_le_length ha] at hp
  exact h hp.symm

/-- A prefix of `s` is a prefix of `s ++ t`. -/
theorem strPrefix_appendl {p s : String} (t : String) (h : strPrefix p s) :
    strPrefix p (s ++ t) := by
  obtain ⟨x, hx⟩ := h
  exact ⟨x ++ t.data, by simp [String.data_append, ← hx]⟩

theorem strContains_of_eq {s p : String} (x y : String) (hs : s = x ++ p ++ y) :
    strContains s p :=
  hs ▸ strContains_appendl y (strContains_appendr x (strContains_rfl p))

theorem strContains_trans {s q p : String} (hq : strContains s q) (hp : strContains q p) :
    strContains s p := List.IsInfix.trans hp hq

/-! ## C1: habit streaks -/

/-- The streak walk counts exactly the run of `true` days ending at `d`,
given the day before the run is not completed. -/
theorem streakFrom_eq_of_run (m : Nat → Bool) :
    ∀ (N today : Nat), N ≤ today →
      (∀ k, k < N → m (today - k) = true) → m (today - N) = false →
      streakFrom m today = N := by
  intro N
  induction N with
  | zero =>
    intro today _ _ hgap
    have hm : m today = false := by simpa using hgap
    cases today with
    | zero => simp [streakFrom, hm]
    | succ d => simp [streakFrom, hm]
  | succ n ih =>
    intro today hle hcons hgap
    obtain ⟨d, rfl⟩ : ∃ d, today = d + 1 := ⟨today - 1, by omega⟩
    have hm : m (d + 1) = true := by simpa using hcons 0 (Nat.succ_pos n)
    rw [streakFrom, hm]
    simp only [if_true]
    have hrun : ∀ k, k < n → m (d - k) = true := by
      intro k hk
      have := hcons (k + 1) (by omega)
      simpa [Nat.succ_sub_succ] using this
    have hstop : m (d - n) = false := by
      have := hgap
      rwa [Nat.succ_sub_succ] at this
    rw [ih d (by omega) hrun hstop]

/-- C1: for every habit and every `N ≥ 1`, when the stored entries hold
`completed=true` for today and the `N-1` consecutive days before today
with no gaps, and the day before those is absent or not completed, the
streak computed by `track_habit` and `view_habits` (`habitStreak`) is
exactly `N`; when today's entry is absent or not completed the streak is
`0`.  `track_habit` reports `habitStreak` of the entries as updated for
today, and each `view_habits` line reports `habitStreak` of the stored
entries. -/
theorem habit_streak_spec :
    (∀ (entries : List HabitEntry) (today N : Nat), 1 ≤ N → N ≤ today →
       (∀ k, k < N → entriesByDate entries (today - k) = true) →
       entriesByDate entries (today - N) = false →
       habitStreak entries today = N) ∧
    (∀ (entries : List HabitEntry) (today : Nat),
       entriesByDate entries today = false → habitStreak entries today = 0) ∧
    (∀ (habits : List Habit) (nm : String) (c : Bool) (today : Nat),
       (pyStrip nm).isEmpty = false →
       strContains (track_habit habits nm c today).msg
         ("Current streak: " ++
            toString (habitStreak (trackedEntries habits (pyLower (pyStrip nm)) today c) today) ++
            " days")) ∧
    (∀ (h : Habit) (today : Nat),
       strContains (viewHabitLine h today)
         (toString (habitStreak h.entries today) ++ " day streak")) := by
  refine ⟨?_, ?_, ?_, ?_⟩
  · intro entries today N _ hNt hcons hgap
    exact streakFrom_eq_of_run (entriesByDate entries) N today hNt hcons hgap
  · intro entries today h
    cases today with
    | zero => simp [habitStreak, streakFrom, h]
    | succ d => simp [habitStreak, streakFrom, h]
  · intro habits nm c today hnm
    simp only [track_habit, hnm, Bool.false_eq_true, if_false]
    apply strContains_appendl
    apply strContains_appendl
    apply strContains_appendl
    apply strContains_appendl
    apply strContains_appendl
    apply strContains_appendl
    apply strContains_appendl
    apply strContains_appendl
    exact strContains_of_eq
      ("Habit: " ++ pyLower (pyStrip nm) ++ " - " ++ (if c then "Done" else "Skipped") ++
        " for today!\n  ") ""
      (by simp only [String.append_assoc, String.append_empty])
  · intro h today
    simp only [viewHabitLine]
    apply strContains_appendl
    apply strContains_appendl
    apply strContains_appendl
    apply strContains_appendl
    apply strContains_appendl
    apply strContains_appendl
    apply strContains_appendl
    exact strContains_of_eq
      ("  " ++ (if entriesByDate h.entries today then "[x]" else "[ ]") ++ " " ++ h.name ++ ": ")
      "" (by simp only [String.append_assoc, String.append_empty])

/-- Witness for `habit_streak_spec`: an exercise habit completed on days
3, 4 and 5 with day 2 absent has streak exactly 3 on day 5. -/
theorem habit_streak_spec_witness :
    (1 ≤ 3 ∧ 3 ≤ 5 ∧
      (∀ k, k < 3 → entriesByDate [⟨3, true⟩, ⟨4, true⟩, ⟨5, true⟩] (5 - k) = true) ∧
      entriesByDate [⟨3, true⟩, ⟨4, true⟩, ⟨5, true⟩] (5 - 3) = false) ∧
    habitStreak [⟨3, true⟩, ⟨4, true⟩, ⟨5, true⟩] 5 = 3 :=
  ⟨⟨by decide, by decide, by decide, by decide⟩,
   habit_streak_spec.1 [⟨3, true⟩, ⟨4, true⟩, ⟨5, true⟩] 5 3 (by decide) (by decide)
     (by decide) (by decide)⟩

/-! ## C7, C9: add_application -/

/-- A successful `add_application` with the default status appends the
record with id `length + 1` and reports company, role and id. -/
theorem add_application_valid (apps : List Application) (c r today now : String)
    (hc : (pyStrip c).isEmpty = false) (hr : (pyStrip r).isEmpty = false) :
    add_application apps c r "applied" "" today now =
      ⟨"Application #" ++ toString (apps.length + 1) ++ " added!\n  Company: " ++ pyStrip c ++
         "\n  Role: " ++ pyStrip r ++ "\n  Status: " ++ "applied" ++ "\n  Date: " ++ today,
       apps ++ [⟨apps.length + 1, pyStrip c, pyStrip r, "applied", "", today, now⟩], true⟩ := by
  have h1 : pyLower (pyStrip "applied") = "applied" := by decide
  have h2 : VALID_STATUSES.contains "applied" = true := by decide
  have h3 : pyStrip "" = "" := by decide
  have h4 : ("applied" : String).isEmpty = false := by decide
  simp only [add_application, hc, hr, h1, h2, h3, h4, Bool.false_eq_true, if_false, if_true]

/-- Helper for the id sequence: `runAdds` over valid pairs extends the id
list by consecutive ids and reports company, role and id in each message. -/
theorem runAdds_spec (today now : String) :
    ∀ (pairs : List (String × String)) (apps : List Application),
    (∀ p ∈ pairs, (pyStrip p.1).isEmpty = false ∧ (pyStrip p.2).isEmpty = false) →
    (runAdds today now pairs apps).2.map (·.id) =
        apps.map (·.id) ++ List.range' (apps.length + 1) pairs.length ∧
    (runAdds today now pairs apps).1.length = pairs.length ∧
    (∀ i m q, (runAdds today now pairs apps).1.get? i = some m →
      pairs.get? i = some q →
      strContains m (pyStrip q.1) ∧ strContains m (pyStrip q.2) ∧
      strContains m (toString (apps.length + i + 1))) := by
  intro pairs
  induction pairs with
  | nil => intro apps _; simp [runAdds]
  | cons p ps ih =>
    intro apps hv
    have hp := hv p (List.mem_cons_self p ps)
    have hadd := add_application_valid apps p.1 p.2 today now hp.1 hp.2
    have hcons : runAdds today now (p :: ps) apps =
        ((add_application apps p.1 p.2 "applied" "" today now).msg ::
           (runAdds today now ps (add_application apps p.1 p.2 "applied" "" today now).store).1,
         (runAdds today now ps (add_application apps p.1 p.2 "applied" "" today now).store).2) :=
      rfl
    rw [hcons, hadd]
    dsimp only
    obtain ⟨h1, h2, h3⟩ := ih
      (apps ++ [⟨apps.length + 1, pyStrip p.1, pyStrip p.2, "applied", "", today, now⟩])
      (fun q hq => hv q (List.mem_cons_of_mem p hq))
    refine ⟨?_, ?_, ?_⟩
    · rw [h1]
      simp [List.range'_succ]
    · simp only [List.length_cons, h2]
    · intro i m q hm hq
      cases i with
      | zero =>
        rw [List.get?_cons_zero, Option.some_inj] at hm hq
        subst hm
        subst hq
        refine ⟨?_, ?_, ?_⟩
        · apply strContains_appendl
          apply strContains_appendl
          apply strContains_appendl
          apply strContains_appendl
          apply strContains_appendl
          apply strContains_appendl
          exact strContains_appendr _ (strContains_rfl _)
        · apply strContains_appendl
          apply strContains_appendl
          apply strContains_appendl
          apply strContains_appendl
          exact strContains_appendr _ (strContains_rfl _)
        · show strContains _ (toString (apps.length + 0 + 1))
          have harith : apps.length + 0 + 1 = apps.length + 1 := by omega
          rw [harith]
          apply strContains_appendl
          apply strContains_appendl
          apply strContains_appendl
          apply strContains_appendl
          apply strContains_appendl
          apply strContains_appendl
          apply strContains_appendl
          apply strContains_appendl
          exact strContains_appendr _ (strContains_rfl _)
      | succ i' =>
        rw [List.get?_cons_succ] at hm hq
        have hmain := h3 i' m q hm hq
        have hlen : (apps ++ [(⟨apps.length + 1, pyStrip p.1, pyStrip p.2, "applied", "",
            today, now⟩ : Application)]).length = apps.length + 1 := by simp
        rw [hlen] at hmain
        have harith : apps.length + 1 + i' + 1 = apps.length + (i' + 1) + 1 := by omega
        rw [harith] at hmain
        exact hmain

/-- C7: starting from a fresh (empty) collection, every sequence of
successful `add_application` calls with valid (company, role) pairs assigns
ids 1, 2, 3, ... (id = current length + 1), and each confirmation message
contains the company, the role and the assigned id. -/
theorem add_application_sequential_ids (today now : String) (pairs : List (String × String))
    (hv : ∀ p ∈ pairs, (pyStrip p.1).isEmpty = false ∧ (pyStrip p.2).isEmpty = false) :
    (runAdds today now pairs []).2.map (·.id) = List.range' 1 pairs.length ∧
    (runAdds today now pairs []).1.length = pairs.length ∧
    (∀ i m q, (runAdds today now pairs []).1.get? i = some m → pairs.get? i = some q →
      strContains m (pyStrip q.1) ∧ strContains m (pyStrip q.2) ∧
      strContains m (toString (i + 1))) := by
  have h := runAdds_spec today now pairs [] hv
  refine ⟨?_, h.2.1, ?_⟩
  · have h1 := h.1
    simpa using h1
  · intro i m q hm hq
    have h3 := h.2.2 i m q hm hq
    simpa using h3

/-- Witness for `add_application_sequential_ids`: two adds from the empty
collection produce ids `[1, 2]`. -/
theorem add_application_sequential_ids_witness :
    (∀ p ∈ [("Google", "SWE"), ("Meta", "PM")],
       (pyStrip p.1).isEmpty = false ∧ (pyStrip p.2).isEmpty = false) ∧
    (runAdds "2026-10-12" "2026-10-12 09:00" [("Google", "SWE"), ("Meta", "PM")] []).2.map
        (·.id) = List.range' 1 [("Google", "SWE"), ("Meta", "PM")].length :=
  ⟨by decide,
   (add_application_sequential_ids "2026-10-12" "2026-10-12 09:00"
     [("Google", "SWE"), ("Meta", "PM")] (by decide)).1⟩

/-- C9: `add_application` with an empty or whitespace-only company or role
returns a string containing `Error` and leaves the stored collection
untouched; in particular for `("", "SWE")` and `("Google", "")`. -/
theorem add_application_empty_field_errors :
    (∀ (apps : List Application) (company role status notes today now : String),
       (pyStrip company).isEmpty = true ∨ (pyStrip role).isEmpty = true →
       strContains (add_application apps company role status notes today now).msg "Error" ∧
       (add_application apps company role status notes today now).store = apps ∧
       (add_application apps company role status notes today now).wrote = false) ∧
    strContains (add_application [] "" "SWE" "applied" "" "d" "n").msg "Error" ∧
    strContains (add_application [] "Google" "" "applied" "" "d" "n").msg "Error" := by
  refine ⟨?_, by decide, by decide⟩
  intro apps company role status notes today now h
  by_cases hc : (pyStrip company).isEmpty = true
  · simp only [add_application, hc, if_true]
    exact ⟨by decide, trivial, trivial⟩
  · have hc2 : (pyStrip company).isEmpty = false := by simpa using hc
    have hr : (pyStrip role).isEmpty = true := by
      rcases h with h | h
      · exact absurd h hc
      · exact h
    simp only [add_application, hc2, hr, Bool.false_eq_true, if_false, if_true]
    exact ⟨by decide, trivial, trivial⟩

/-- Witness for `add_application_empty_field_errors`: the empty-company
call on a one-record store errors and leaves the record in place. -/
theorem add_application_empty_field_errors_witness :
    ((pyStrip "").isEmpty = true ∨ (pyStrip "SWE").isEmpty = true) ∧
    (strContains (add_application [⟨1, "A", "B", "applied", "", "d", "n"⟩] "" "SWE" "applied"
        "" "d" "n").msg "Error" ∧
     (add_application [⟨1, "A", "B", "applied", "", "d", "n"⟩] "" "SWE" "applied"
        "" "d" "n").store = [⟨1, "A", "B", "applied", "", "d", "n"⟩] ∧
     (add_application [⟨1, "A", "B", "applied", "", "d", "n"⟩] "" "SWE" "applied"
        "" "d" "n").wrote = false) :=
  ⟨Or.inl (by decide),
   add_application_empty_field_errors.1 [⟨1, "A", "B", "applied", "", "d", "n"⟩] "" "SWE"
     "applied" "" "d" "n" (Or.inl (by decide))⟩

/-! ## C5, C10: update_application, complete_task, add_to_savings -/

/-- Running `update_loop` over a collection without the id: not-found error,
collection returned unchanged, nothing written. -/
theorem update_loop_not_found (aid : Nat) (st no nw : String) :
    ∀ l : List Application, (∀ a ∈ l, a.id ≠ aid) →
      update_loop aid st no nw l =
        ⟨"Error: Application #" ++ toString aid ++ " not found.", l, false⟩ := by
  intro l
  induction l with
  | nil => intro _; rfl
  | cons a rest ih =>
    intro h
    have ha : ¬(a.id = aid) := h a (List.mem_cons_self a rest)
    have hrec := ih (fun b hb => h b (List.mem_cons_of_mem a hb))
    simp only [update_loop, if_neg ha, hrec]

/-- Running `update_loop` over a collection holding the id: the first matching
record is replaced (status set, `last_updated` stamped, notes kept or
replaced) and the file is written. -/
theorem update_loop_found (aid : Nat) (st no nw : String) :
    ∀ l : List Application, (∃ a ∈ l, a.id = aid) →
      ∃ i, ∃ hi : i < l.length, (l.get ⟨i, hi⟩).id = aid ∧
        (update_loop aid st no nw l).store =
          l.set i { l.get ⟨i, hi⟩ with
                    status := st
                    last_updated := nw
                    notes := if no.isEmpty then (l.get ⟨i, hi⟩).notes else pyStrip no } ∧
        (update_loop aid st no nw l).wrote = true := by
  intro l
  induction l with
  | nil => rintro ⟨a, ha, -⟩; exact absurd ha (List.not_mem_nil a)
  | cons a rest ih =>
    intro h
    by_cases ha : a.id = aid
    · refine ⟨0, by simp, ha, ?_, ?_⟩
      · simp only [update_loop, if_pos ha]
        rfl
      · simp only [update_loop, if_pos ha]
    · obtain ⟨b, hb, hbid⟩ := h
      rcases List.mem_cons.mp hb with rfl | hb2
      · exact absurd hbid ha
      · obtain ⟨i, hi, hid, hstore, hwrote⟩ := ih ⟨b, hb2, hbid⟩
        refine ⟨i + 1, by simpa using Nat.succ_lt_succ hi, ?_, ?_, ?_⟩
        · simpa using hid
        · simp only [update_loop, if_neg ha]
          show a :: (update_loop aid st no nw rest).store = _
          rw [hstore]
          rfl
        · simp only [update_loop, if_neg ha]
          exact hwrote

/-- C5: `update_application` with a status outside the 7-value set errors
with the collection unchanged and nothing written; with a valid status and
a present id the first matching record's status becomes the new status and
its `last_updated` becomes the current timestamp, persisted; with a valid
status and an absent id the message contains `not found` and nothing is
written. -/
theorem update_application_spec :
    (∀ (apps : List Application) (aid : Int) (status notes now : String),
       VALID_STATUSES.contains (normStatus status) = false →
       strContains (update_application apps aid status notes now).msg "Error" ∧
       (update_application apps aid status notes now).store = apps ∧
       (update_application apps aid status notes now).wrote = false) ∧
    (∀ (apps : List Application) (aid : Int) (status notes now : String),
       1 ≤ aid → VALID_STATUSES.contains (normStatus status) = true →
       (∃ a ∈ apps, a.id = aid.toNat) →
       ∃ i, ∃ hi : i < apps.length, (apps.get ⟨i, hi⟩).id = aid.toNat ∧
         (update_application apps aid status notes now).store =
           apps.set i { apps.get ⟨i, hi⟩ with
                        status := normStatus status
                        last_updated := now
                        notes := if notes.isEmpty then (apps.get ⟨i, hi⟩).notes
                                 else pyStrip notes } ∧
         (update_application apps aid status notes now).wrote = true) ∧
    (∀ (apps : List Application) (aid : Int) (status notes now : String),
       1 ≤ aid → VALID_STATUSES.contains (normStatus status) = true →
       (∀ a ∈ apps, a.id ≠ aid.toNat) →
       strContains (update_application apps aid status notes now).msg "not found" ∧
       (update_application apps aid status notes now).store = apps ∧
       (update_application apps aid status notes now).wrote = false) := by
  refine ⟨?_, ?_, ?_⟩
  · intro apps aid status notes now h
    by_cases haid : aid < 1
    · simp only [update_application, if_pos haid]
      exact ⟨by decide, trivial, trivial⟩
    · simp only [update_application, if_neg haid, h, Bool.false_eq_true, if_false]
      refine ⟨?_, trivial, trivial⟩
      apply strContains_appendl
      apply strContains_appendl
      apply strContains_appendl
      decide
  · intro apps aid status notes now haid h hex
    have haid2 : ¬(aid < 1) := by omega
    simp only [update_application, if_neg haid2, h, if_true]
    exact update_loop_found aid.toNat (normStatus status) notes now apps hex
  · intro apps aid status notes now haid h habs
    have haid2 : ¬(aid < 1) := by omega
    simp only [update_application, if_neg haid2, h, if_true]
    rw [update_loop_not_found aid.toNat (normStatus status) notes now apps habs]
    refine ⟨?_, rfl, rfl⟩
    apply strContains_appendr
    decide

/-- Witness for `update_application_spec`: updating application 1 to
`offer` in a one-record store rewrites that record. -/
theorem update_application_spec_witness :
    (1 ≤ (1 : Int) ∧ VALID_STATUSES.contains (normStatus "offer") = true ∧
      (∃ a ∈ [(⟨1, "G", "SWE", "applied", "", "d", "t0"⟩ : Application)], a.id = (1 : Int).toNat)) ∧
    ∃ i, ∃ hi : i < [(⟨1, "G", "SWE", "applied", "", "d", "t0"⟩ : Application)].length,
      (([(⟨1, "G", "SWE", "applied", "", "d", "t0"⟩ : Application)]).get ⟨i, hi⟩).id =
        (1 : Int).toNat ∧
      (update_application [⟨1, "G", "SWE", "applied", "", "d", "t0"⟩] 1 "offer" "" "t1").store =
        ([(⟨1, "G", "SWE", "applied", "", "d", "t0"⟩ : Application)]).set i
          { ([(⟨1, "G", "SWE", "applied", "", "d", "t0"⟩ : Application)]).get ⟨i, hi⟩ with
            status := normStatus "offer"
            last_updated := "t1"
            notes := if ("" : String).isEmpty
                     then (([(⟨1, "G", "SWE", "applied", "", "d", "t0"⟩ : Application)]).get
                        ⟨i, hi⟩).notes
                     else pyStrip "" } ∧
      (update_application [⟨1, "G", "SWE", "applied", "", "d", "t0"⟩] 1 "offer" "" "t1").wrote =
        true :=
  ⟨⟨by decide, by decide, ⟨⟨1, "G", "SWE", "applied", "", "d", "t0"⟩, by decide, by decide⟩⟩,
   update_application_spec.2.1 [⟨1, "G", "SWE", "applied", "", "d", "t0"⟩] 1 "offer" "" "t1"
     (by decide) (by decide)
     ⟨⟨1, "G", "SWE", "applied", "", "d", "t0"⟩, by decide, by decide⟩⟩

/-- The loop `update_loop` never writes when it reports an error: the returned
collection is the input collection. -/
theorem update_loop_error_no_write (aid : Nat) (st no nw : String) :
    ∀ l : List Application, strPrefix "Error" (update_loop aid st no nw l).msg →
      (update_loop aid st no nw l).store = l ∧ (update_loop aid st no nw l).wrote = false := by
  intro l
  induction l with
  | nil => intro _; exact ⟨rfl, rfl⟩
  | cons a rest ih =>
    intro h
    by_cases ha : a.id = aid
    · exfalso
      simp only [update_loop, if_pos ha, strPrefix, String.data_append,
        List.append_assoc] at h
      exact not_error_prefix_list _ (by decide) (by decide) h
    · simp only [update_loop, if_neg ha] at h ⊢
      obtain ⟨h1, h2⟩ := ih h
      exact ⟨by rw [h1], h2⟩

/-- The loop `complete_loop` never writes when it reports an error: the returned
collection is the already-scanned prefix followed by the remainder. -/
theorem complete_loop_error_no_write (tid : Nat) (nw : String) :
    ∀ (l acc : List Todo), strPrefix "Error" (complete_loop tid nw acc l).msg →
      (complete_loop tid nw acc l).store = acc ++ l ∧
      (complete_loop tid nw acc l).wrote = false := by
  intro l
  induction l with
  | nil => intro acc _; exact ⟨by simp [complete_loop], rfl⟩
  | cons t rest ih =>
    intro acc h
    by_cases ht : t.id = tid
    · by_cases hc : t.status = "completed"
      · simp only [complete_loop, if_pos ht, if_pos hc]
        exact ⟨trivial, trivial⟩
      · exfalso
        simp only [complete_loop, if_pos ht, if_neg hc, strPrefix, String.data_append,
          List.append_assoc] at h
        exact not_error_prefix_list _ (by decide) (by decide) h
    · simp only [complete_loop, if_neg ht] at h ⊢
      obtain ⟨h1, h2⟩ := ih (acc ++ [t]) h
      exact ⟨by rw [h1]; simp, h2⟩

/-- The loop `savings_loop` never writes when it reports an error. -/
theorem savings_loop_error_no_write (gid : Nat) (amount : ℚ) (today : String) :
    ∀ l : List SavingsGoal, strPrefix "Error" (savings_loop gid amount today l).msg →
      (savings_loop gid amount today l).store = l ∧
      (savings_loop gid amount today l).wrote = false := by
  intro l
  induction l with
  | nil => intro _; exact ⟨rfl, rfl⟩
  | cons g rest ih =>
    intro h
    by_cases hg : g.id = gid
    · exfalso
      simp only [savings_loop, if_pos hg] at h
      by_cases hpct : 100 ≤ savingsPct (round2 (g.saved + amount)) g.target
      · simp only [if_pos hpct, strPrefix, String.data_append, List.append_assoc] at h
        exact not_error_prefix_list _ (by decide) (by decide) h
      · simp only [if_neg hpct, strPrefix, String.data_append, List.append_assoc] at h
        exact not_error_prefix_list _ (by decide) (by decide) h
    · simp only [savings_loop, if_neg hg] at h ⊢
      obtain ⟨h1, h2⟩ := ih h
      exact ⟨by rw [h1], h2⟩

/-- C10: whenever `update_application`, `complete_task` or `add_to_savings`
returns an error string, the collection file is not written and the
collection is exactly as before the call. -/
theorem error_results_never_write :
    (∀ (apps : List Application) (aid : Int) (status notes now : String),
       strPrefix "Error" (update_application apps aid status notes now).msg →
       (update_application apps aid status notes now).store = apps ∧
       (update_application apps aid status notes now).wrote = false) ∧
    (∀ (todos : List Todo) (tid : Int) (now : String),
       strPrefix "Error" (complete_task todos tid now).msg →
       (complete_task todos tid now).store = todos ∧
       (complete_task todos tid now).wrote = false) ∧
    (∀ (savings : List SavingsGoal) (gid : Int) (amount : ℚ) (today : String),
       strPrefix "Error" (add_to_savings savings gid amount today).msg →
       (add_to_savings savings gid amount today).store = savings ∧
       (add_to_savings savings gid amount today).wrote = false) := by
  refine ⟨?_, ?_, ?_⟩
  · intro apps aid status notes now h
    by_cases haid : aid < 1
    · simp only [update_application, if_pos haid]
      exact ⟨trivial, trivial⟩
    · by_cases hst : VALID_STATUSES.contains (normStatus status) = true
      · simp only [update_application, if_neg haid, hst, if_true] at h ⊢
        exact update_loop_error_no_write aid.toNat (normStatus status) notes now apps h
      · simp only [update_application, if_neg haid, hst, Bool.false_eq_true, if_false]
        exact ⟨trivial, trivial⟩
  · intro todos tid now h
    by_cases htid : tid < 1
    · simp only [complete_task, if_pos htid]
      exact ⟨trivial, trivial⟩
    · simp only [complete_task, if_neg htid] at h ⊢
      have := complete_loop_error_no_write tid.toNat now todos [] h
      simpa using this
  · intro savings gid amount today h
    by_cases hgid : gid < 1
    · simp only [add_to_savings, if_pos hgid]
      exact ⟨trivial, trivial⟩
    · by_cases hamt : amount ≤ 0
      · simp only [add_to_savings, if_neg hgid, if_pos hamt]
        exact ⟨trivial, trivial⟩
      · simp only [add_to_savings, if_neg hgid, if_neg hamt] at h ⊢
        exact savings_loop_error_no_write gid.toNat (round2 amount) today savings h

/-- Witness for `error_results_never_write`: a not-found update on a
one-record store leaves the store alone. -/
theorem error_results_never_write_witness :
    strPrefix "Error"
      (update_application [⟨1, "G", "SWE", "applied", "", "d", "t0"⟩] 7 "offer" "" "t1").msg ∧
    (update_application [⟨1, "G", "SWE", "applied", "", "d", "t0"⟩] 7 "offer" "" "t1").store =
      [⟨1, "G", "SWE", "applied", "", "d", "t0"⟩] ∧
    (update_application [⟨1, "G", "SWE", "applied", "", "d", "t0"⟩] 7 "offer" "" "t1").wrote =
      false :=
  ⟨by decide,
   (error_results_never_write.1 [⟨1, "G", "SWE", "applied", "", "d", "t0"⟩] 7 "offer" "" "t1"
      (by decide)).1,
   (error_results_never_write.1 [⟨1, "G", "SWE", "applied", "", "d", "t0"⟩] 7 "offer" "" "t1"
      (by decide)).2⟩

/-! ## C8: persistence round-trip -/

/-- Decoding inverts encoding for one application record. -/
theorem jsonToApp_appToJson (a : Application) : jsonToApp (appToJson a) = some a := by
  simp [appToJson, jsonToApp, jsonLookup, Json.asNat, Json.asStr]

/-- C8: saving a collection and loading it back yields the same sequence
of records (order preserved), re-serializing the loaded collection writes
an identical file, and every record's field values survive the encoding. -/
theorem save_load_round_trip (apps : List Application) :
    load_applications (save_applications (apps.map appToJson)) = apps.map appToJson ∧
    save_applications (load_applications (save_applications (apps.map appToJson))) =
      save_applications (apps.map appToJson) ∧
    decodeApps (apps.map appToJson) = some apps := by
  refine ⟨rfl, rfl, ?_⟩
  induction apps with
  | nil => rfl
  | cons a rest ih =>
    simp [decodeApps, jsonToApp_appToJson, ih]

/-! ## C2: savings progress and the goal-reached condition -/

/-- Counterexample to C2 as stated: depositing 999 into a fresh goal with
target 1000 leaves the saved amount strictly below the target, yet the
call reports `GOAL REACHED` (the rounded percentage
`min(100, round(99.9))` is already 100). -/
theorem goal_reached_below_target :
    strContains (add_to_savings [⟨1, "G", 1000, 0, "", [], "c"⟩] 1 999 "d").msg
      "GOAL REACHED" ∧
    (add_to_savings [⟨1, "G", 1000, 0, "", [], "c"⟩] 1 999 "d").store =
      [⟨1, "G", 1000, 999, "", [⟨999, "d"⟩], "c"⟩] ∧
    (999 : ℚ) < 1000 := by
  have h0 : ¬ ((1 : Int) < 1) := by decide
  have h1 : ¬ ((999 : ℚ) ≤ 0) := by norm_num
  have h2 : round2 (999 : ℚ) = 999 := by norm_num [round2, pythonRound]
  have h4 : savingsPct (999 : ℚ) 1000 = 100 := by norm_num [savingsPct, pythonRound]
  refine ⟨?_, ?_, by norm_num⟩
  · simp only [add_to_savings, if_neg h0, if_neg h1, h2, savings_loop]
    norm_num [h2, h4]
    apply strContains_appendr
    decide
  · simp only [add_to_savings, if_neg h0, if_neg h1, h2, savings_loop]
    norm_num [h2]

/-- C2 as amended: the Laptop scenario (`set_savings_goal("Laptop", 50000)`
then `add_to_savings(1, 25000)`) reports `(50%)`; and for every goal found
by id, the `GOAL REACHED` component of the result is nonempty exactly when
`min(100, round(100 * saved / target))` has reached 100 — a condition that
can already hold with `saved` strictly below `target` (see
`goal_reached_below_target`), not only at `saved ≥ target`. -/
theorem add_to_savings_progress_spec :
    strContains
      (add_to_savings (set_savings_goal [] "Laptop" 50000 "" "c").store 1 25000 "d").msg
      "(50%)" ∧
    (∀ (g : SavingsGoal) (rest : List SavingsGoal) (gid : Int) (amount : ℚ) (today : String),
       1 ≤ gid → 0 < amount → g.id = gid.toNat →
       ((add_to_savings (g :: rest) gid amount today).reached ≠ "" ↔
         100 ≤ savingsPct (round2 (g.saved + round2 amount)) g.target) ∧
       ((add_to_savings (g :: rest) gid amount today).reached ≠ "" →
         strContains (add_to_savings (g :: rest) gid amount today).msg "GOAL REACHED")) := by
  constructor
  · have hname : (pyStrip "Laptop").isEmpty = false := by decide
    have ht : ¬ ((50000 : ℚ) ≤ 0) := by norm_num
    have hr : round2 (50000 : ℚ) = 50000 := by norm_num [round2, pythonRound]
    have h0 : ¬ ((1 : Int) < 1) := by decide
    have h1 : ¬ ((25000 : ℚ) ≤ 0) := by norm_num
    have h2 : round2 (25000 : ℚ) = 25000 := by norm_num [round2, pythonRound]
    have h4 : savingsPct (25000 : ℚ) 50000 = 50 := by norm_num [savingsPct, pythonRound]
    have hpat : ("(50%)" : String) = "(" ++ toString (50 : ℤ) ++ "%)" := by decide
    simp only [set_savings_goal, hname, ht, Bool.false_eq_true, if_false, hr]
    simp only [add_to_savings, if_neg h0, if_neg h1, h2, savings_loop]
    norm_num [h2, h4]
    rw [hpat]
    apply strContains_appendl
    apply strContains_appendl
    apply strContains_appendl
    apply strContains_appendl
    exact strContains_of_eq
      ("Added Rs." ++ fmtMoney 25000 ++ " to \x27" ++ pyStrip "Laptop" ++
        "\x27!\n  Progress: Rs." ++ fmtMoney 25000 ++ " / Rs." ++ fmtMoney 50000 ++ " ") ""
      (by simp only [String.append_assoc, String.append_empty])
  · intro g rest gid amount today h1 h2 h3
    have h0 : ¬ (gid < 1) := by omega
    have hA : ¬ (amount ≤ 0) := not_le.mpr h2
    simp only [add_to_savings, if_neg h0, if_neg hA, savings_loop, if_pos h3]
    by_cases hp : 100 ≤ savingsPct (round2 (g.saved + round2 amount)) g.target
    · refine ⟨⟨fun _ => hp, fun _ => ?_⟩, fun _ => ?_⟩
      · simp only [if_pos hp]
        decide
      · simp only [if_pos hp]
        apply strContains_appendr
        decide
    · refine ⟨⟨fun hne => absurd ?_ hne, fun hple => absurd hple hp⟩, fun hne => absurd ?_ hne⟩
      · simp only [if_neg hp]
      · simp only [if_neg hp]

/-- Witness for `add_to_savings_progress_spec`: the 999-into-1000 deposit
satisfies the quantified part's hypotheses and its goal-reached component
fires. -/
theorem add_to_savings_progress_spec_witness :
    (1 ≤ (1 : Int) ∧ (0 : ℚ) < 999 ∧
      (⟨1, "G", 1000, 0, "", [], "c"⟩ : SavingsGoal).id = (1 : Int).toNat) ∧
    ((add_to_savings [⟨1, "G", 1000, 0, "", [], "c"⟩] 1 999 "d").reached ≠ "" ↔
      100 ≤ savingsPct (round2 ((⟨1, "G", 1000, 0, "", [], "c"⟩ : SavingsGoal).saved +
        round2 999)) (⟨1, "G", 1000, 0, "", [], "c"⟩ : SavingsGoal).target) :=
  ⟨⟨by decide, by norm_num, by decide⟩,
   (add_to_savings_progress_spec.2 ⟨1, "G", 1000, 0, "", [], "c"⟩ [] 1 999 "d"
      (by decide) (by norm_num) (by decide)).1⟩

/-! ## C6: budget warning threshold -/

theorem str_append_ne_empty_left {a : String} (b : String) (ha : a ≠ "") : a ++ b ≠ "" := by
  intro h
  apply ha
  have hd := congrArg String.data h
  rw [String.data_append] at hd
  have hnil : a.data = [] := (List.append_eq_nil.mp hd).1
  cases a
  cases hnil
  rfl

/-- Calling `set_budget(1000, ...)` stores the singleton with `monthly_total = 1000`. -/
theorem set_budget_1000_store (cb bd : String) :
    (set_budget 1000 cb bd).store = some ⟨1000, parseCategoryBudgets cb, bd⟩ := by
  have hpos : ¬ ((1000 : ℚ) ≤ 0) := by norm_num
  have hr : round2 (1000 : ℚ) = 1000 := by norm_num [round2, pythonRound]
  simp only [set_budget, if_neg hpos, hr]

/-- C6: after `set_budget(1000)`, an `add_expense` call carries the budget
warning (a nonempty `budget_warn` component, surfacing `WARNING` in the
message) exactly when the resulting current-month expense sum strictly
exceeds 80% of 1000, i.e. 800. -/
theorem add_expense_budget_warning :
    ∀ (expenses : List Expense) (amount : ℚ) (category description today month now cb bd :
        String),
    ¬ amount ≤ 0 →
    EXPENSE_CATEGORIES.contains (normCat category) = true →
    ((add_expense expenses (set_budget 1000 cb bd).store amount category description
        today month now).warn ≠ "" ↔
      (800 : ℚ) < monthExpenseTotal
        (add_expense expenses (set_budget 1000 cb bd).store amount category description
          today month now).expenses month) ∧
    ((add_expense expenses (set_budget 1000 cb bd).store amount category description
        today month now).warn ≠ "" →
      strContains (add_expense expenses (set_budget 1000 cb bd).store amount category
        description today month now).msg "WARNING") := by
  intro expenses amount category description today month now cb bd hA hcat
  have hb := set_budget_1000_store cb bd
  have h810 : (1000 : ℚ) * (8 / 10) = 800 := by norm_num
  simp only [add_expense, hb, if_neg hA, hcat, if_true, h810]
  by_cases hcond : (800 : ℚ) < monthExpenseTotal
      (expenses ++ [⟨expenses.length + 1, round2 amount, normCat category,
        if description.isEmpty then "" else pyStrip description, today, now⟩]) month
  · have hpos : (0 : ℚ) < 1000 ∧ (800 : ℚ) < monthExpenseTotal
        (expenses ++ [⟨expenses.length + 1, round2 amount, normCat category,
          if description.isEmpty then "" else pyStrip description, today, now⟩]) month :=
      ⟨by norm_num, hcond⟩
    simp only [if_pos hpos]
    constructor
    · exact ⟨fun _ => hcond, fun _ =>
        str_append_ne_empty_left _ (str_append_ne_empty_left _ (by decide))⟩
    · intro _
      apply strContains_appendr
      apply strContains_appendl
      apply strContains_appendl
      decide
  · have hneg : ¬ ((0 : ℚ) < 1000 ∧ (800 : ℚ) < monthExpenseTotal
        (expenses ++ [⟨expenses.length + 1, round2 amount, normCat category,
          if description.isEmpty then "" else pyStrip description, today, now⟩]) month) :=
      fun h => hcond h.2
    simp only [if_neg hneg]
    exact ⟨⟨fun hne => absurd rfl hne, fun hple => absurd hple hcond⟩,
           fun hne => absurd rfl hne⟩

/-- Witness for `add_expense_budget_warning`: a 900 food expense on a fresh
month under the 1000 budget triggers the warning (900 > 800). -/
theorem add_expense_budget_warning_witness :
    (¬ (900 : ℚ) ≤ 0 ∧ EXPENSE_CATEGORIES.contains (normCat "food") = true) ∧
    ((add_expense [] (set_budget 1000 "" "2026-10-01").store 900 "food" "" "2026-10-12"
        "2026-10" "n").warn ≠ "" ↔
      (800 : ℚ) < monthExpenseTotal
        (add_expense [] (set_budget 1000 "" "2026-10-01").store 900 "food" "" "2026-10-12"
          "2026-10" "n").expenses "2026-10") :=
  ⟨⟨by norm_num, by decide⟩,
   (add_expense_budget_warning [] 900 "food" "" "2026-10-12" "2026-10" "n" "" "2026-10-01"
      (by norm_num) (by decide)).1⟩

/-! ## C3, C4: failure paths and enumerated fields -/

/-- Running `complete_loop` over a collection without the id returns the not-found
error with the scanned records re-accumulated and nothing written. -/
theorem complete_loop_not_found (tid : Nat) (nw : String) :
    ∀ (l acc : List Todo), (∀ t ∈ l, t.id ≠ tid) →
      complete_loop tid nw acc l =
        ⟨"Error: Task #" ++ toString tid ++ " not found.", acc ++ l, false⟩ := by
  intro l
  induction l with
  | nil => intro acc _; simp [complete_loop]
  | cons t rest ih =>
    intro acc h
    have ht : ¬(t.id = tid) := h t (List.mem_cons_self t rest)
    rw [complete_loop, if_neg ht, ih (acc ++ [t]) (fun b hb => h b (List.mem_cons_of_mem t hb))]
    simp

/-- Running `savings_loop` over a collection without the id returns the not-found
error with the collection unchanged and nothing written. -/
theorem savings_loop_not_found (gid : Nat) (amount : ℚ) (today : String) :
    ∀ l : List SavingsGoal, (∀ g ∈ l, g.id ≠ gid) →
      savings_loop gid amount today l =
        ⟨"Error: Savings goal #" ++ toString gid ++ " not found.", "", l, false⟩ := by
  intro l
  induction l with
  | nil => intro _; rfl
  | cons g rest ih =>
    intro h
    have hg : ¬(g.id = gid) := h g (List.mem_cons_self g rest)
    have hrec := ih (fun b hb => h b (List.mem_cons_of_mem g hb))
    simp only [savings_loop, if_neg hg, hrec]

/-- Counterexample to C3 as stated: the expected failure paths of
`log_mood` (empty mood, unrecognized mood) return descriptive strings that
do not begin with `Error:`, and perform no store mutation. -/
theorem log_mood_failure_not_error_prefixed :
    ¬ strPrefix "Error:" (log_mood [] "" "" "d" "n").msg ∧
    (log_mood [] "" "" "d" "n").msg =
      "Please tell me how you\x27re feeling. Options: great, good, okay, low, stressed, " ++
        "anxious, sad, angry, tired" ∧
    (log_mood [] "" "" "d" "n").store = [] ∧
    ¬ strPrefix "Error:" (log_mood [] "bleh" "" "d" "n").msg ∧
    (log_mood [] "bleh" "" "d" "n").store = [] := by
  decide

/-- C3 as amended: on every expected failure path of the modelled tools
the returned string begins with `Error:` (and `search_jobs` returns a
mapping carrying an `error` key) — with the exception of `log_mood`, whose
two failure messages are descriptive strings without the `Error:` prefix. -/
theorem failure_paths_error_prefixed :
    (∀ (apps : List Application) (c r st no d n : String),
       (pyStrip c).isEmpty = true ∨ (pyStrip r).isEmpty = true →
       strPrefix "Error:" (add_application apps c r st no d n).msg) ∧
    (∀ (apps : List Application) (c r st no d n : String),
       VALID_STATUSES.contains (if st.isEmpty then "applied" else pyLower (pyStrip st)) =
         false →
       strPrefix "Error:" (add_application apps c r st no d n).msg) ∧
    (∀ (apps : List Application) (aid : Int) (st no nw : String),
       (∀ a ∈ apps, a.id ≠ aid.toNat) ∨ VALID_STATUSES.contains (normStatus st) = false →
       strPrefix "Error:" (update_application apps aid st no nw).msg) ∧
    (∀ (todos : List Todo) (task pri dd n : String),
       (pyStrip task).isEmpty = true ∨
         TODO_PRIORITIES.contains (if pri.isEmpty then "medium" else pyLower (pyStrip pri)) =
           false →
       strPrefix "Error:" (add_task todos task pri dd n).msg) ∧
    (∀ (todos : List Todo) (tid : Int) (nw : String),
       (∀ t ∈ todos, t.id ≠ tid.toNat) →
       strPrefix "Error:" (complete_task todos tid nw).msg) ∧
    (∀ (goals : List WeeklyGoal) (g cat ws n : String), (pyStrip g).isEmpty = true →
       strPrefix "Error:" (set_weekly_goal goals g cat ws n).msg) ∧
    (∀ (habits : List Habit) (nm : String) (c : Bool) (today : Nat),
       (pyStrip nm).isEmpty = true →
       strPrefix "Error:" (track_habit habits nm c today).msg) ∧
    (∀ (expenses : List Expense) (budget : Option Budget) (amount : ℚ)
        (cat desc t m n : String),
       amount ≤ 0 ∨ EXPENSE_CATEGORIES.contains (normCat cat) = false →
       strPrefix "Error:" (add_expense expenses budget amount cat desc t m n).msg) ∧
    (∀ (income : List IncomeEntry) (amount : ℚ) (src desc t m n : String), amount ≤ 0 →
       strPrefix "Error:" (add_income income amount src desc t m n).msg) ∧
    (∀ (mt : ℚ) (cb bd : String), mt ≤ 0 → strPrefix "Error:" (set_budget mt cb bd).msg) ∧
    (∀ (savings : List SavingsGoal) (nm : String) (ta : ℚ) (dl td : String),
       (pyStrip nm).isEmpty = true ∨ ta ≤ 0 →
       strPrefix "Error:" (set_savings_goal savings nm ta dl td).msg) ∧
    (∀ (savings : List SavingsGoal) (gid : Int) (amount : ℚ) (td : String),
       (∀ g ∈ savings, g.id ≠ gid.toNat) →
       strPrefix "Error:" (add_to_savings savings gid amount td).msg) ∧
    (∀ (title loc : String), (pyStrip title).isEmpty = true →
       ("error", "job_title is required and cannot be empty.") ∈ search_jobs title loc) ∧
    (∀ (entries : List MoodEntry) (mood notes d n : String),
       (pyStrip mood).isEmpty = true ∨
         VALID_MOODS.contains (pyLower (pyStrip mood)) = false →
       ¬ strPrefix "Error:" (log_mood entries mood notes d n).msg ∧
       (log_mood entries mood notes d n).store = entries ∧
       (log_mood entries mood notes d n).wrote = false) := by
  refine ⟨?_, ?_, ?_, ?_, ?_, ?_, ?_, ?_, ?_, ?_, ?_, ?_, ?_, ?_⟩
  · intro apps c r st no d n h
    by_cases hc : (pyStrip c).isEmpty = true
    · simp only [add_application, hc, if_true]
      decide
    · have hc2 : (pyStrip c).isEmpty = false := by simpa using hc
      have hr : (pyStrip r).isEmpty = true := by
        rcases h with h | h
        · exact absurd h hc
        · exact h
      simp only [add_application, hc2, hr, Bool.false_eq_true, if_false, if_true]
      decide
  · intro apps c r st no d n h
    by_cases hc : (pyStrip c).isEmpty = true
    · simp only [add_application, hc, if_true]
      decide
    · have hc2 : (pyStrip c).isEmpty = false := by simpa using hc
      by_cases hr : (pyStrip r).isEmpty = true
      · simp only [add_application, hc2, hr, Bool.false_eq_true, if_false, if_true]
        decide
      · have hr2 : (pyStrip r).isEmpty = false := by simpa using hr
        simp only [add_application, hc2, hr2, h, Bool.false_eq_true, if_false]
        apply strPrefix_appendl
        apply strPrefix_appendl
        apply strPrefix_appendl
        decide
  · intro apps aid st no nw h
    by_cases haid : aid < 1
    · simp only [update_application, if_pos haid]
      decide
    · by_cases hst : VALID_STATUSES.contains (normStatus st) = true
      · have habs : ∀ a ∈ apps, a.id ≠ aid.toNat := by
          rcases h with h | h
          · exact h
          · rw [hst] at h
            exact absurd h (by decide)
        simp only [update_application, if_neg haid, hst, if_true]
        rw [update_loop_not_found aid.toNat (normStatus st) no nw apps habs]
        apply strPrefix_appendl
        apply strPrefix_appendl
        decide
      · have hst2 : VALID_STATUSES.contains (normStatus st) = false := by simpa using hst
        simp only [update_application, if_neg haid, hst2, Bool.false_eq_true, if_false]
        apply strPrefix_appendl
        apply strPrefix_appendl
        apply strPrefix_appendl
        decide
  · intro todos task pri dd n h
    by_cases htask : (pyStrip task).isEmpty = true
    · simp only [add_task, htask, if_true]
      decide
    · have htask2 : (pyStrip task).isEmpty = false := by simpa using htask
      have hpri : TODO_PRIORITIES.contains
          (if pri.isEmpty then "medium" else pyLower (pyStrip pri)) = false := by
        rcases h with h | h
        · exact absurd h htask
        · exact h
      simp only [add_task, htask2, hpri, Bool.false_eq_true, if_false]
      apply strPrefix_appendl
      decide
  · intro todos tid nw h
    by_cases htid : tid < 1
    · simp only [complete_task, if_pos htid]
      decide
    · simp only [complete_task, if_neg htid]
      rw [complete_loop_not_found tid.toNat nw todos [] h]
      apply strPrefix_appendl
      apply strPrefix_appendl
      decide
  · intro goals g cat ws n h
    simp only [set_weekly_goal, h, if_true]
    decide
  · intro habits nm c today h
    simp only [track_habit, h, if_true]
    decide
  · intro expenses budget amount cat desc t m n h
    by_cases hamt : amount ≤ 0
    · simp only [add_expense, if_pos hamt]
      decide
    · have hcat : EXPENSE_CATEGORIES.contains (normCat cat) = false := by
        rcases h with h | h
        · exact absurd h hamt
        · exact h
      simp only [add_expense, if_neg hamt, hcat, Bool.false_eq_true, if_false]
      apply strPrefix_appendl
      decide
  · intro income amount src desc t m n h
    simp only [add_income, if_pos h]
    decide
  · intro mt cb bd h
    simp only [set_budget, if_pos h]
    decide
  · intro savings nm ta dl td h
    by_cases hnm : (pyStrip nm).isEmpty = true
    · simp only [set_savings_goal, hnm, if_true]
      decide
    · have hnm2 : (pyStrip nm).isEmpty = false := by simpa using hnm
      have hta : ta ≤ 0 := by
        rcases h with h | h
        · exact absurd h hnm
        · exact h
      simp only [set_savings_goal, hnm2, Bool.false_eq_true, if_false, if_pos hta]
      decide
  · intro savings gid amount td h
    by_cases hgid : gid < 1
    · simp only [add_to_savings, if_pos hgid]
      decide
    · by_cases hamt : amount ≤ 0
      · simp only [add_to_savings, if_neg hgid, if_pos hamt]
        decide
      · simp only [add_to_savings, if_neg hgid, if_neg hamt]
        rw [savings_loop_not_found gid.toNat (round2 amount) td savings h]
        apply strPrefix_appendl
        apply strPrefix_appendl
        decide
  · intro title loc h
    simp only [search_jobs, h, if_true]
    exact List.mem_singleton.mpr rfl
  · intro entries mood notes d n h
    by_cases hm : (pyStrip mood).isEmpty = true
    · simp only [log_mood, hm, if_true]
      exact ⟨by decide, trivial, trivial⟩
    · have hm2 : (pyStrip mood).isEmpty = false := by simpa using hm
      have hv : VALID_MOODS.contains (pyLower (pyStrip mood)) = false := by
        rcases h with h | h
        · exact absurd h hm
        · exact h
      simp only [log_mood, hm2, hv, Bool.false_eq_true, if_false]
      refine ⟨?_, trivial, trivial⟩
      simp only [strPrefix, String.data_append, List.append_assoc]
      exact not_prefix_of_take_ne _ (by decide) (by decide)

/-- Witness for `failure_paths_error_prefixed`: a not-found
`complete_task` call reports an `Error:`-prefixed string. -/
theorem failure_paths_error_prefixed_witness :
    (∀ t ∈ ([] : List Todo), t.id ≠ (5 : Int).toNat) ∧
    strPrefix "Error:" (complete_task [] 5 "n").msg :=
  ⟨by decide, failure_paths_error_prefixed.2.2.2.2.1 [] 5 "n" (by decide)⟩

/-- Counterexample to C4 as stated: `add_income` with the out-of-set
source `lottery` does not fail — it logs the entry with source coerced to
`other` and mutates the store; likewise `set_weekly_goal` with category
`invalidcat` stores the goal under `general`. -/
theorem silent_enum_coercion :
    INCOME_TYPES.contains (pyLower (pyStrip "lottery")) = false ∧
    strPrefix "Income logged!"
      (add_income [] 100 "lottery" "" "2026-10-12" "2026-10" "n").msg ∧
    (add_income [] 100 "lottery" "" "2026-10-12" "2026-10" "n").store =
      [⟨1, 100, "other", "", "2026-10-12", "n"⟩] ∧
    (add_income [] 100 "lottery" "" "2026-10-12" "2026-10" "n").wrote = true ∧
    VALID_CATEGORIES.contains (pyLower (pyStrip "invalidcat")) = false ∧
    (set_weekly_goal [] "Ship" "invalidcat" "ws" "n").store =
      [⟨1, "Ship", "general", "in_progress", "ws", "n", ""⟩] ∧
    (set_weekly_goal [] "Ship" "invalidcat" "ws" "n").wrote = true := by
  have h1 : ¬ ((100 : ℚ) ≤ 0) := by norm_num
  have h2 : round2 (100 : ℚ) = 100 := by norm_num [round2, pythonRound]
  have hsrc : (if ("lottery" : String).isEmpty then "salary" else pyLower (pyStrip "lottery")) =
      "lottery" := by decide
  have hmem : INCOME_TYPES.contains "lottery" = false := by decide
  refine ⟨by decide, ?_, ?_, ?_, by decide, by decide, by decide⟩
  · simp only [add_income, if_neg h1]
    apply strPrefix_appendl
    apply strPrefix_appendl
    apply strPrefix_appendl
    apply strPrefix_appendl
    apply strPrefix_appendl
    decide
  · simp only [add_income, if_neg h1, h2, hsrc, hmem, Bool.false_eq_true, if_false,
      List.nil_append]
    simp
    decide
  · simp only [add_income, if_neg h1]

/-- C4 as amended: the enumerated fields status (`add_application`),
priority (`add_task`), category (`add_expense`) and mood (`log_mood`)
reject out-of-set values with a descriptive error and no store mutation;
but `add_income`'s source and `set_weekly_goal`'s category are silently
replaced by `other` / `general` and the call succeeds and mutates the
store. -/
theorem enum_fields_validation :
    (∀ (apps : List Application) (c r st no d n : String),
       (pyStrip c).isEmpty = false → (pyStrip r).isEmpty = false →
       VALID_STATUSES.contains (if st.isEmpty then "applied" else pyLower (pyStrip st)) =
         false →
       strPrefix "Error:" (add_application apps c r st no d n).msg ∧
       (add_application apps c r st no d n).store = apps ∧
       (add_application apps c r st no d n).wrote = false) ∧
    (∀ (todos : List Todo) (task pri dd n : String),
       (pyStrip task).isEmpty = false →
       TODO_PRIORITIES.contains (if pri.isEmpty then "medium" else pyLower (pyStrip pri)) =
         false →
       strPrefix "Error:" (add_task todos task pri dd n).msg ∧
       (add_task todos task pri dd n).store = todos ∧
       (add_task todos task pri dd n).wrote = false) ∧
    (∀ (expenses : List Expense) (budget : Option Budget) (amount : ℚ)
        (cat desc t m n : String),
       ¬ amount ≤ 0 → EXPENSE_CATEGORIES.contains (normCat cat) = false →
       strPrefix "Error:" (add_expense expenses budget amount cat desc t m n).msg ∧
       (add_expense expenses budget amount cat desc t m n).expenses = expenses ∧
       (add_expense expenses budget amount cat desc t m n).wrote = false) ∧
    (∀ (entries : List MoodEntry) (mood notes d n : String),
       VALID_MOODS.contains (pyLower (pyStrip mood)) = false →
       (log_mood entries mood notes d n).store = entries ∧
       (log_mood entries mood notes d n).wrote = false) ∧
    (∀ (income : List IncomeEntry) (amount : ℚ) (src desc t m n : String),
       ¬ amount ≤ 0 → src.isEmpty = false →
       INCOME_TYPES.contains (pyLower (pyStrip src)) = false →
       strPrefix "Income logged!" (add_income income amount src desc t m n).msg ∧
       (add_income income amount src desc t m n).store =
         income ++ [⟨income.length + 1, round2 amount, "other",
           if desc.isEmpty then "" else pyStrip desc, t, n⟩] ∧
       (add_income income amount src desc t m n).wrote = true) ∧
    (∀ (goals : List WeeklyGoal) (g cat ws n : String),
       (pyStrip g).isEmpty = false →
       VALID_CATEGORIES.contains (pyLower (pyStrip cat)) = false →
       strPrefix "Weekly goal #" (set_weekly_goal goals g cat ws n).msg ∧
       (set_weekly_goal goals g cat ws n).store =
         goals ++ [⟨goals.length + 1, pyStrip g, "general", "in_progress", ws, n, ""⟩] ∧
       (set_weekly_goal goals g cat ws n).wrote = true) := by
  refine ⟨?_, ?_, ?_, ?_, ?_, ?_⟩
  · intro apps c r st no d n hc hr hst
    simp only [add_application, hc, hr, hst, Bool.false_eq_true, if_false]
    refine ⟨?_, trivial, trivial⟩
    apply strPrefix_appendl
    apply strPrefix_appendl
    apply strPrefix_appendl
    decide
  · intro todos task pri dd n htask hpri
    simp only [add_task, htask, hpri, Bool.false_eq_true, if_false]
    refine ⟨?_, trivial, trivial⟩
    apply strPrefix_appendl
    decide
  · intro expenses budget amount cat desc t m n hamt hcat
    simp only [add_expense, if_neg hamt, hcat, Bool.false_eq_true, if_false]
    refine ⟨?_, trivial, trivial⟩
    apply strPrefix_appendl
    decide
  · intro entries mood notes d n hv
    by_cases hm : (pyStrip mood).isEmpty = true
    · simp only [log_mood, hm, if_true]
      exact ⟨trivial, trivial⟩
    · have hm2 : (pyStrip mood).isEmpty = false := by simpa using hm
      simp only [log_mood, hm2, hv, Bool.false_eq_true, if_false]
      exact ⟨trivial, trivial⟩
  · intro income amount src desc t m n hamt hsrc hmem
    have hsource : (if src.isEmpty then "salary" else pyLower (pyStrip src)) =
        pyLower (pyStrip src) := by rw [hsrc]; simp
    simp only [add_income, if_neg hamt, hsource, hmem, Bool.false_eq_true, if_false]
    refine ⟨?_, trivial, trivial⟩
    apply strPrefix_appendl
    apply strPrefix_appendl
    apply strPrefix_appendl
    apply strPrefix_appendl
    apply strPrefix_appendl
    decide
  · intro goals g cat ws n hg hcat
    have hc2 : (if VALID_CATEGORIES.contains
        (if cat.isEmpty then "general" else pyLower (pyStrip cat))
        then (if cat.isEmpty then "general" else pyLower (pyStrip cat))
        else "general") = "general" := by
      by_cases hce : cat.isEmpty = true
      · simp [hce]
      · have hce2 : cat.isEmpty = false := by simpa using hce
        simp only [hce2, Bool.false_eq_true, if_false, hcat]
    simp only [set_weekly_goal, hg, Bool.false_eq_true, if_false, hc2]
    refine ⟨?_, trivial, trivial⟩
    apply strPrefix_appendl
    apply strPrefix_appendl
    apply strPrefix_appendl
    apply strPrefix_appendl
    apply strPrefix_appendl
    apply strPrefix_appendl
    apply strPrefix_appendl
    apply strPrefix_appendl
    decide

/-- Witness for `enum_fields_validation`: the lottery income entry is
accepted with source `other`. -/
theorem enum_fields_validation_witness :
    (¬ (100 : ℚ) ≤ 0 ∧ ("lottery" : String).isEmpty = false ∧
      INCOME_TYPES.contains (pyLower (pyStrip "lottery")) = false) ∧
    ((add_income [] 100 "lottery" "x" "2026-10-12" "2026-10" "n").store =
      ([] : List IncomeEntry) ++ [⟨([] : List IncomeEntry).length + 1, round2 100, "other",
        if ("x" : String).isEmpty then "" else pyStrip "x", "2026-10-12", "n"⟩] ∧
     (add_income [] 100 "lottery" "x" "2026-10-12" "2026-10" "n").wrote = true) :=
  ⟨⟨by norm_num, by decide, by decide⟩,
   ⟨(enum_fields_validation.2.2.2.2.1 [] 100 "lottery" "x" "2026-10-12" "2026-10" "n"
       (by norm_num) (by decide) (by decide)).2.1,
    (enum_fields_validation.2.2.2.2.1 [] 100 "lottery" "x" "2026-10-12" "2026-10" "n"
       (by norm_num) (by decide) (by decide)).2.2⟩⟩

/-! Sanity checks on concrete inputs. -/

example :
    (add_application [] "Google" "SWE" "applied" "" "2026-10-12" "2026-10-12 09:00").store =
      [⟨1, "Google", "SWE", "applied", "", "2026-10-12", "2026-10-12 09:00"⟩] := by
  decide

example :
    (add_application [] "" "SWE" "applied" "" "d" "n").msg = "Error: Company name is required." := by
  decide

example :
    strContains (add_application [] "Google" "SWE" "applied" "" "d" "n").msg "Google" := by
  decide
